import Mathlib

/-!
Verification of the scoring and evaluation engine of an information-retrieval
project (TF-IDF / BM25 scoring plus MAP / MRR / R-Precision metrics).

The Python source is shallowly embedded:
* a corpus is an association list from document id to an association list from
  term to weight (Python dicts keep insertion order, which an association list
  preserves);
* scores are rationals (`ℚ`), standing for Python floats in the exact fragment
  the metrics use; idf weights that go through `math.log` are real numbers;
* `sorted(scores, key=scores.get, reverse=True)` is a stable descending sort,
  embedded as `Performance.sortDesc` (an insertion sort that keeps the original
  order of equal-score entries, which pins down the same list Timsort returns);
* code that can raise is embedded with `Option`/`Except`: a `none`/`.error`
  marks the input on which the Python call raises.
-/

namespace Performance

/-- Entries of a score dictionary: document id paired with its score, in the
dict's insertion order. -/
abbrev ScoreMap := List (String × ℚ)

/-- Embedding of `Performance.filter_relevance_by_threshold`: keep the pairs
whose score is strictly greater than the threshold, in dict order. -/
def filter_relevance_by_threshold (scores : ScoreMap) (threshold : ℚ) : ScoreMap :=
  scores.filter (fun p => threshold < p.2)

/-- Insert one entry into a descending-sorted list, after every entry with a
strictly greater score (so equal scores keep their relative order). -/
def insertDesc (p : String × ℚ) : ScoreMap → ScoreMap
  | [] => [p]
  | q :: t => if p.2 < q.2 then q :: insertDesc p t else p :: q :: t

/-- Stable descending sort by score: the list `sorted(scores,
key=scores.get, reverse=True)` iterates over. -/
def sortDesc : ScoreMap → ScoreMap
  | [] => []
  | p :: t => insertDesc p (sortDesc t)

/-- Embedding of `Performance.filter_relevance_by_top_k`: walk the
score-descending order and keep entries while the running index is below
`top_k` (so a non-positive `top_k` keeps nothing). -/
def filter_relevance_by_top_k (scores : ScoreMap) (top_k : ℤ) : ScoreMap :=
  (sortDesc scores).take top_k.toNat

/-- Embedding of `Performance.filter_ranked_list`: the threshold filtering is
computed first and then discarded whenever `top_k > 0`, in which case top-k
filtering of the unfiltered map is returned instead. -/
def filter_ranked_list (scores : ScoreMap) (top_k : ℤ) (threshold : ℚ) : ScoreMap :=
  let total_retrieved := filter_relevance_by_threshold scores threshold
  if 0 < top_k then filter_relevance_by_top_k scores top_k else total_retrieved

/-- Position of the first occurrence of `x`, Python's `list.index` (with
`none` for the ValueError case). -/
def pyIndex (x : String) : List String → Option ℕ
  | [] => none
  | d :: ds => if d == x then some 0 else (pyIndex x ds).map (· + 1)

/-- Lookup of a retrieved document in the ground truth: the Python code runs
`actual_relevance[actual_doc_ids.index(doc)]` under `except ValueError: pass`,
so a document id absent from `actual_doc_ids` yields no relevance (`none`)
and is skipped.  (`actual_doc_ids` and `actual_relevance` are parallel lists
of equal length; an index beyond `actual_relevance` would be an uncaught
IndexError and never occurs for parallel inputs.) -/
def relLookup (actual_doc_ids : List String) (actual_relevance : List ℤ)
    (doc : String) : Option ℤ :=
  match pyIndex doc actual_doc_ids with
  | none => none
  | some i => actual_relevance.get? i

end Performance

namespace AveragePrecision

/-- Walk (`enumerate`) of `avg_precision_score`: over the retrieved document
ids in descending-score order, at each position whose document has relevance
label exactly 1, increment the relevant-count and append
`count / (index + 1)` to the precision list. -/
def apWalk (ids : List String) (rels : List ℤ) :
    List String → ℕ → ℕ → List ℚ
  | [], _, _ => []
  | d :: ds, index, count =>
      match Performance.relLookup ids rels d with
      | some r =>
          if r = 1 then
            ((count + 1 : ℕ) : ℚ) / ((index + 1 : ℕ) : ℚ) ::
              apWalk ids rels ds (index + 1) (count + 1)
          else apWalk ids rels ds (index + 1) count
      | none => apWalk ids rels ds (index + 1) count

/-- Embedding of `AveragePrecision.avg_precision_score`: filter the predicted
scores through `filter_ranked_list`, walk the result in descending-score
order collecting `count/rank` at every relevant hit, and return the mean of
the collected precisions (0 if none were collected). -/
def avg_precision_score (predicted : Performance.ScoreMap)
    (ids : List String) (rels : List ℤ) (threshold : ℚ) (top_k : ℤ) : ℚ :=
  let total_retrieved := Performance.filter_ranked_list predicted top_k threshold
  let order := (Performance.sortDesc total_retrieved).map Prod.fst
  let precision_arr := apWalk ids rels order 0 0
  if 0 < precision_arr.length then precision_arr.sum / (precision_arr.length : ℚ)
  else 0

/-- Embedding of `AveragePrecision.mean_avg_precision` over the accumulated
`{query: precision}` dict. The code checks `len_prec > 0` before dividing and
returns 0 otherwise, so it never divides by zero; the `Option` result (always
`some`) keeps it comparable with the unguarded means below, where `none`
models a division by a zero query count. -/
def mean_avg_precision (precision_scores : List (String × ℚ)) : Option ℚ :=
  let len_prec := precision_scores.length
  if 0 < len_prec then
    some ((precision_scores.map Prod.snd).sum / (len_prec : ℚ))
  else some 0

end AveragePrecision

namespace ReciprocalRank

/-- Walk of `ReciprocalRank.rank`: over the retrieved ids in descending-score
order, return `1/(index+1)` at the first document with relevance label 1, and
0 when no relevant document is found. -/
def rrWalk (ids : List String) (rels : List ℤ) : List String → ℕ → ℚ
  | [], _ => 0
  | d :: ds, index =>
      match Performance.relLookup ids rels d with
      | some r =>
          if r = 1 then 1 / ((index + 1 : ℕ) : ℚ) else rrWalk ids rels ds (index + 1)
      | none => rrWalk ids rels ds (index + 1)

/-- Embedding of `ReciprocalRank.rank`. -/
def rank (predicted : Performance.ScoreMap) (ids : List String)
    (rels : List ℤ) (threshold : ℚ) (top_k : ℤ) : ℚ :=
  let total_retrieved := Performance.filter_ranked_list predicted top_k threshold
  rrWalk ids rels ((Performance.sortDesc total_retrieved).map Prod.fst) 0

/-- Embedding of `ReciprocalRank.mean_reciprocal_rank`: the code divides
`np.sum(self.ranks)` by `len(self.ranks)` with no guard, so a batch in which
zero queries contributed has a zero denominator (NaN under numpy), modeled as
`none`. -/
def mean_reciprocal_rank (ranks : List ℚ) : Option ℚ :=
  let num_queries := ranks.length
  if num_queries = 0 then none else some (ranks.sum / (num_queries : ℚ))

end ReciprocalRank

namespace Precision

/-- Embedding of `Precision.r_prec`: count the retrieved documents whose
ground-truth relevance label is exactly 1 (the walk's order does not matter
for a count), divide by `np.sum(actual_relevance)` when that sum is positive,
and return 0 otherwise. -/
def r_prec (predicted : Performance.ScoreMap) (ids : List String)
    (rels : List ℤ) (threshold : ℚ) (top_k : ℤ) : ℚ :=
  let total_retrieved := Performance.filter_ranked_list predicted top_k threshold
  let order := (Performance.sortDesc total_retrieved).map Prod.fst
  let counter := order.countP (fun d => Performance.relLookup ids rels d == some 1)
  let num_relevant := rels.sum
  if 0 < num_relevant then (counter : ℚ) / (num_relevant : ℚ) else 0

/-- Embedding of `Precision.mean_r_prec`: divides `np.sum(self.scores)` by
`len(self.scores)` with no guard; a zero query count is modeled as `none`. -/
def mean_r_prec (scores : List ℚ) : Option ℚ :=
  let num_r_prec := scores.length
  if num_r_prec = 0 then none else some (scores.sum / (num_r_prec : ℚ))

end Precision

namespace BM25

/-- Corpus held by `BM25`: document ids mapped to term→weight dicts, embedded
as association lists in insertion order. -/
abbrev Corpus := List (String × List (String × ℚ))

/-- Dict lookup `self.documents[doc_id]`: `none` is the KeyError case. -/
def lookupDoc (documents : Corpus) (doc_id : String) :
    Option (List (String × ℚ)) :=
  (documents.find? (fun p => p.1 == doc_id)).map Prod.snd

/-- Dict lookup of a term inside one document's term dict. -/
def lookupTerm (terms : List (String × ℚ)) (term : String) : Option ℚ :=
  (terms.find? (fun p => p.1 == term)).map Prod.snd

/-- Embedding of `BM25.get_average_doc_length`: `num_items` accumulates
`len(v)` — the number of entries of each document's term dict — and is
divided by the number of documents. -/
def get_average_doc_length (documents : Corpus) : ℚ :=
  let num_docs : ℚ := (documents.length : ℚ)
  let num_items : ℚ := ((documents.map (fun p => p.2.length)).sum : ℕ)
  num_items / num_docs

/-- The average document length in the spec's words: the sum of all term
counts across all documents divided by the number of documents. -/
def average_doc_length_spec (documents : Corpus) : ℚ :=
  (documents.map (fun p => (p.2.map Prod.snd).sum)).sum / (documents.length : ℚ)

/-- Embedding of `BM25.get_doc_length`: sums the term weights of the given
document; a missing `doc_id` is an uncaught KeyError (`none`). -/
def get_doc_length (documents : Corpus) (doc_id : String) : Option ℚ :=
  (lookupDoc documents doc_id).map (fun terms => (terms.map Prod.snd).sum)

/-- Embedding of `BM25.get_term_frequency_in_doc`: `self.documents[doc_id][term]`
with `except KeyError: return 0`, so both a missing document and a missing
term fall back to 0. -/
def get_term_frequency_in_doc (documents : Corpus) (term doc_id : String) : ℚ :=
  match lookupDoc documents doc_id with
  | none => 0
  | some terms =>
      match lookupTerm terms term with
      | none => 0
      | some v => v

/-- Document frequency as computed inside `idf_weight_2`: the number of
documents where the term's frequency is positive. -/
def docFreq (documents : Corpus) (term : String) : ℕ :=
  documents.countP (fun p => decide (0 < get_term_frequency_in_doc documents term p.1))

/-- Embedding of `BM25.idf_weight_2`: the code computes
`math.log1p(1 + (num_docs - df + 0.5)/(df + 0.5))`, and `log1p x = log (1 + x)`,
so the returned weight is `log (1 + (1 + (N - df + 0.5)/(df + 0.5)))`. -/
noncomputable def idf_weight_2 (documents : Corpus) (term : String) : ℝ :=
  let df : ℝ := (docFreq documents term : ℝ)
  let num_docs : ℝ := (documents.length : ℝ)
  Real.log (1 + (1 + (num_docs - df + 1 / 2) / (df + 1 / 2)))

/-- The BM25-style probabilistic idf in the spec's words:
`log(1 + (N - df + 0.5) / (df + 0.5))`, for comparison with `idf_weight_2`. -/
noncomputable def idf_weight_2_spec (documents : Corpus) (term : String) : ℝ :=
  let df : ℝ := (docFreq documents term : ℝ)
  let num_docs : ℝ := (documents.length : ℝ)
  Real.log (1 + (num_docs - df + 1 / 2) / (df + 1 / 2))

end BM25

namespace TFIDF

/-- Corpus passed to `TFIDF.__init__`: a document-word count dict (counts are
the non-negative integers of the data model), or `none` for a Python `None`. -/
abbrev Corpus := List (String × List (String × ℕ))

/-- Embedding of the exception behavior of `TFIDF.__init__` (which also runs
`create_tf_idf_matrix`): a `None` corpus raises the initialization exception;
otherwise the only raise reachable on a count dict is `math.log(v, 10)` inside
`create_tf_matrix` on a zero count (math domain error).  Every other numeric
step is defined: `create_idf_matrix` divides `num_docs` by document
frequencies that are at least 1 whenever the vocabulary is non-empty, and the
tf denominator `1 + log10(max_freq)` is at least 1 once all counts of a
non-empty document are positive.  In particular an empty dict `{}` is not
`None`, runs every loop zero times, and constructs successfully. -/
def init (documents : Option Corpus) : Except String Unit :=
  match documents with
  | none => Except.error "TFIDF should be initialized with a corpus."
  | some docs =>
      if docs.any (fun d => d.2.any (fun t => t.2 = 0)) then
        Except.error "math domain error"
      else Except.ok ()

/-- Cut a character list at every whitespace character. -/
def splitAux : List Char → List Char → List (List Char)
  | [], cur => [cur.reverse]
  | c :: cs, cur =>
      if c.isWhitespace then cur.reverse :: splitAux cs []
      else splitAux cs (c :: cur)

/-- Whitespace tokenization `query.split()`: split on runs of whitespace,
dropping the empty pieces runs and edges produce. -/
def pySplit (s : String) : List String :=
  ((splitAux s.toList []).filter (fun t => !t.isEmpty)).map (fun cs => String.mk cs)

/-- The distinct tokens of the query (`set(tokens)` then `dict.fromkeys`),
listed here in first-occurrence order; Python's set order is unspecified, and
nothing below depends on the order chosen. -/
def distinctTokens (l : List String) : List String :=
  l.foldl (fun acc t => if t ∈ acc then acc else acc ++ [t]) []

/-- Dict lookup in the engine's idf vector. -/
def idfLookup (idf_vector : List (String × ℚ)) (k : String) : Option ℚ :=
  (idf_vector.find? (fun p => p.1 == k)).map Prod.snd

/-- Embedding of `TFIDF.create_query_vector`, parameterized by the engine's
idf vector (only membership and multiplication of its weights matter here).
The code iterates over `word_dict.items()` and, on a `KeyError` (token absent
from the idf vector), executes `word_dict.pop(k)` inside that iteration.
Under Python 3 the next step of a dict iteration after the dict changed size
raises `RuntimeError: dictionary changed size during iteration` — and a next
step always happens, the loop's terminating check included — so the call
raises whenever any distinct token is missing from the idf vector, and only a
query whose tokens are all known returns the dict of
`idf[token] * token count` weights. -/
def create_query_vector (idf_vector : List (String × ℚ)) (query : String) :
    Except String (List (String × ℚ)) :=
  let tokens := pySplit query
  let keys := distinctTokens tokens
  if keys.any (fun k => (idfLookup idf_vector k).isNone) then
    Except.error "RuntimeError: dictionary changed size during iteration"
  else
    Except.ok (keys.filterMap (fun k =>
      (idfLookup idf_vector k).map (fun w => (k, w * (tokens.count k : ℚ)))))

end TFIDF

namespace Performance

theorem length_insertDesc (p : String × ℚ) (l : ScoreMap) :
    (insertDesc p l).length = l.length + 1 := by
  induction l with
  | nil => rfl
  | cons q t ih =>
      simp only [insertDesc]
      split <;> simp [ih]

theorem length_sortDesc (l : ScoreMap) : (sortDesc l).length = l.length := by
  induction l with
  | nil => rfl
  | cons p t ih => simp [sortDesc, length_insertDesc, ih]

theorem perm_insertDesc (p : String × ℚ) (l : ScoreMap) :
    (insertDesc p l).Perm (p :: l) := by
  induction l with
  | nil => exact List.Perm.refl _
  | cons q t ih =>
      simp only [insertDesc]
      split
      · exact (ih.cons q).trans (List.Perm.swap p q t)
      · exact List.Perm.refl _

theorem perm_sortDesc (l : ScoreMap) : (sortDesc l).Perm l := by
  induction l with
  | nil => exact List.Perm.refl _
  | cons p t ih => exact (perm_insertDesc p (sortDesc t)).trans (ih.cons p)

theorem mem_insertDesc {x p : String × ℚ} {l : ScoreMap} :
    x ∈ insertDesc p l ↔ x = p ∨ x ∈ l := by
  rw [(perm_insertDesc p l).mem_iff, List.mem_cons]

theorem pairwise_insertDesc {p : String × ℚ} {l : ScoreMap}
    (h : l.Pairwise (fun a b => b.2 ≤ a.2)) :
    (insertDesc p l).Pairwise (fun a b => b.2 ≤ a.2) := by
  induction l with
  | nil => simp [insertDesc]
  | cons q t ih =>
      simp only [insertDesc]
      rcases h with _ | ⟨hq, ht⟩
      split
      · refine List.Pairwise.cons ?_ (ih ht)
        intro x hx
        rcases mem_insertDesc.mp hx with rfl | hx
        · exact le_of_lt (by assumption)
        · exact hq x hx
      · refine List.Pairwise.cons ?_ (List.Pairwise.cons hq ht)
        intro x hx
        rcases List.mem_cons.mp hx with rfl | hx
        · exact le_of_not_lt (by assumption)
        · exact le_trans (hq x hx) (le_of_not_lt (by assumption))

/-- The order produced by `sortDesc` is descending: every entry's score is ≥
the score of every later entry. -/
theorem pairwise_sortDesc (l : ScoreMap) :
    (sortDesc l).Pairwise (fun a b => b.2 ≤ a.2) := by
  induction l with
  | nil => simp [sortDesc]
  | cons p t ih => exact pairwise_insertDesc ih

end Performance

/-- C1: on the one-document corpus `{d1: {a: 2}}` the source's
`get_average_doc_length` returns 1 — it accumulates `len(v)`, the number of
term entries per document — while the spec's average (sum of all term counts
divided by the document count, `average_doc_length_spec`) is 2; the two
computations disagree on this corpus. -/
theorem get_average_doc_length_counts_entries_not_term_counts :
    BM25.get_average_doc_length [("d1", [("a", 2)])] = 1 ∧
    BM25.average_doc_length_spec [("d1", [("a", 2)])] = 2 ∧
    BM25.get_average_doc_length [("d1", [("a", 2)])] ≠
      BM25.average_doc_length_spec [("d1", [("a", 2)])] := by
  refine ⟨?_, ?_, ?_⟩ <;>
    norm_num [BM25.get_average_doc_length, BM25.average_doc_length_spec]

/-- C2: on the corpus `{d1: {a: 1}}` (N = 1, df = 1 for term `a`) the source's
`idf_weight_2` — `math.log1p(1 + (N - df + 0.5)/(df + 0.5))`, that is,
`log(2 + (N - df + 0.5)/(df + 0.5))` — returns `log(7/3)`, while the claimed
formula `log(1 + (N - df + 0.5)/(df + 0.5))` gives `log(4/3)`; the two
disagree on this corpus. -/
theorem idf_weight_2_adds_one_to_log1p_argument :
    BM25.idf_weight_2 [("d1", [("a", 1)])] "a" = Real.log (7 / 3) ∧
    BM25.idf_weight_2_spec [("d1", [("a", 1)])] "a" = Real.log (4 / 3) ∧
    BM25.idf_weight_2 [("d1", [("a", 1)])] "a" ≠
      BM25.idf_weight_2_spec [("d1", [("a", 1)])] "a" := by
  have hdf : BM25.docFreq [("d1", [("a", (1 : ℚ))])] "a" = 1 := by decide
  have h1 : BM25.idf_weight_2 [("d1", [("a", 1)])] "a" = Real.log (7 / 3) := by
    simp only [BM25.idf_weight_2, hdf, List.length_cons, List.length_nil]
    norm_num
  have h2 : BM25.idf_weight_2_spec [("d1", [("a", 1)])] "a" = Real.log (4 / 3) := by
    simp only [BM25.idf_weight_2_spec, hdf, List.length_cons, List.length_nil]
    norm_num
  refine ⟨h1, h2, ?_⟩
  rw [h1, h2]
  have hlt : Real.log (4 / 3) < Real.log (7 / 3) :=
    Real.log_lt_log (by norm_num) (by norm_num)
  exact ne_of_gt hlt

/-- C3: `filter_ranked_list` returns the top-k filtering of the unfiltered
score map whenever `top_k > 0` (discarding the threshold-filtered result),
returns the pure threshold filtering when `top_k ≤ 0`, and with `top_k = 5`
and any threshold a score map of at least 5 documents still yields exactly 5
results. -/
theorem filter_ranked_list_top_k_wins (scores : Performance.ScoreMap)
    (top_k : ℤ) (threshold : ℚ) :
    (0 < top_k → Performance.filter_ranked_list scores top_k threshold =
      Performance.filter_relevance_by_top_k scores top_k) ∧
    (top_k ≤ 0 → Performance.filter_ranked_list scores top_k threshold =
      Performance.filter_relevance_by_threshold scores threshold) ∧
    (5 ≤ scores.length →
      (Performance.filter_ranked_list scores 5 threshold).length = 5) := by
  refine ⟨fun h => ?_, fun h => ?_, fun h => ?_⟩
  · simp [Performance.filter_ranked_list, h]
  · simp [Performance.filter_ranked_list, not_lt.mpr h]
  · have h5 : (0 : ℤ) < 5 := by norm_num
    simp only [Performance.filter_ranked_list, if_pos h5,
      Performance.filter_relevance_by_top_k, List.length_take,
      Performance.length_sortDesc]
    omega

/-- Witness for C3 at a concrete score map of five documents and a threshold
(100) above every score: the precedence branches and the five returned
results. -/
theorem filter_ranked_list_top_k_wins_witness :
    (Performance.filter_ranked_list
        [("d1", 1), ("d2", 2), ("d3", 3), ("d4", 4), ("d5", 5)] 5 100 =
      Performance.filter_relevance_by_top_k
        [("d1", 1), ("d2", 2), ("d3", 3), ("d4", 4), ("d5", 5)] 5) ∧
    (Performance.filter_ranked_list
        [("d1", 1), ("d2", 2), ("d3", 3), ("d4", 4), ("d5", 5)] (-1) 100 =
      Performance.filter_relevance_by_threshold
        [("d1", 1), ("d2", 2), ("d3", 3), ("d4", 4), ("d5", 5)] 100) ∧
    (Performance.filter_ranked_list
        [("d1", 1), ("d2", 2), ("d3", 3), ("d4", 4), ("d5", 5)] 5 100).length = 5 :=
  ⟨(filter_ranked_list_top_k_wins _ 5 100).1 (by norm_num),
   (filter_ranked_list_top_k_wins _ (-1) 100).2.1 (by norm_num),
   (filter_ranked_list_top_k_wins _ 5 100).2.2 (by decide)⟩

/-- C8: for every score map and natural number `k`, `filter_relevance_by_top_k`
returns exactly `min k |scores|` entries; the kept entries followed by the
dropped remainder reassemble the descending sort, which is a permutation of
the score map, and every kept entry's score is ≥ every dropped entry's
score. -/
theorem filter_relevance_by_top_k_min_and_dominates
    (scores : Performance.ScoreMap) (k : ℕ) :
    (Performance.filter_relevance_by_top_k scores (k : ℤ)).length =
      min k scores.length ∧
    Performance.filter_relevance_by_top_k scores (k : ℤ) ++
        (Performance.sortDesc scores).drop k = Performance.sortDesc scores ∧
    (Performance.sortDesc scores).Perm scores ∧
    ∀ p ∈ Performance.filter_relevance_by_top_k scores (k : ℤ),
      ∀ q ∈ (Performance.sortDesc scores).drop k, q.2 ≤ p.2 := by
  have htk : ((k : ℤ)).toNat = k := Int.toNat_natCast k
  refine ⟨?_, ?_, Performance.perm_sortDesc scores, ?_⟩
  · simp [Performance.filter_relevance_by_top_k, htk, Performance.length_sortDesc]
  · simp [Performance.filter_relevance_by_top_k, htk]
  · intro p hp q hq
    have hsplit : (Performance.sortDesc scores).take k ++
        (Performance.sortDesc scores).drop k = Performance.sortDesc scores :=
      List.take_append_drop k _
    have hpw := Performance.pairwise_sortDesc scores
    rw [← hsplit] at hpw
    have := (List.pairwise_append.mp hpw).2.2
    simp only [Performance.filter_relevance_by_top_k, htk] at hp
    exact this p hp q hq

/-- Witness for C8 at the score map `{a: 1, b: 2}` with `k = 1`: one entry is
kept and its score 2 dominates the dropped score 1. -/
theorem filter_relevance_by_top_k_min_and_dominates_witness :
    (Performance.filter_relevance_by_top_k [("a", 1), ("b", 2)] ((1 : ℕ) : ℤ)).length =
      min 1 2 ∧
    ((("a", (1 : ℚ)) : String × ℚ).2 ≤ (("b", (2 : ℚ)) : String × ℚ).2) :=
  ⟨(filter_relevance_by_top_k_min_and_dominates [("a", 1), ("b", 2)] 1).1,
   (filter_relevance_by_top_k_min_and_dominates [("a", 1), ("b", 2)] 1).2.2.2
     ("b", 2) (by decide) ("a", 1) (by decide)⟩

theorem r_prec_scenario_eval :
    Precision.r_prec [("d1", 9 / 10), ("d2", 1 / 2), ("d3", 1 / 10)]
      ["d1", "d2", "d3"] [1, 0, 1] 0 (-1) = 1 := by
  have h1 : Performance.relLookup ["d1", "d2", "d3"] [1, 0, 1] "d1" = some 1 := by decide
  have h2 : Performance.relLookup ["d1", "d2", "d3"] [1, 0, 1] "d2" = some 0 := by decide
  have h3 : Performance.relLookup ["d1", "d2", "d3"] [1, 0, 1] "d3" = some 1 := by decide
  norm_num [Precision.r_prec, Performance.filter_ranked_list,
    Performance.filter_relevance_by_threshold, Performance.sortDesc,
    Performance.insertDesc, List.countP_cons, h1, h2, h3]

/-- C4: counterexample — on the scenario with ground truth `[d1, d2, d3]`,
relevance `[1, 0, 1]`, predicted scores `{d1: 0.9, d2: 0.5, d3: 0.1}` and
default filtering (threshold 0, `top_k = -1`), `r_prec` does not return 0.5:
the threshold filter keeps all three documents, so both relevant documents
are counted. -/
theorem r_prec_scenario_not_half :
    Precision.r_prec [("d1", 9 / 10), ("d2", 1 / 2), ("d3", 1 / 10)]
      ["d1", "d2", "d3"] [1, 0, 1] 0 (-1) ≠ 1 / 2 := by
  rw [r_prec_scenario_eval]
  norm_num

/-- C4 (amended): on that scenario `r_prec` returns 1: the retrieved set is
all three documents (every score exceeds the threshold 0), both documents
with relevance label 1 (`d1` and `d3`) are counted, and the count 2 is
divided by `np.sum([1, 0, 1]) = 2`. -/
theorem r_prec_scenario_returns_one :
    Precision.r_prec [("d1", 9 / 10), ("d2", 1 / 2), ("d3", 1 / 10)]
      ["d1", "d2", "d3"] [1, 0, 1] 0 (-1) = 1 :=
  r_prec_scenario_eval

/-- C7: on the scenario with ground truth `[d1, d2, d3]`, relevance
`[1, 0, 1]`, predicted scores `{d1: 0.9, d2: 0.5, d3: 0.1}` and default
filtering (threshold 0, `top_k = -1`), `avg_precision_score` returns the mean
of `[1/1, 2/3]`, that is `5/6 = 0.8333...`, and `ReciprocalRank.rank`
returns 1. -/
theorem avg_precision_and_rank_scenario :
    AveragePrecision.avg_precision_score
        [("d1", 9 / 10), ("d2", 1 / 2), ("d3", 1 / 10)]
        ["d1", "d2", "d3"] [1, 0, 1] 0 (-1) = 5 / 6 ∧
    ReciprocalRank.rank [("d1", 9 / 10), ("d2", 1 / 2), ("d3", 1 / 10)]
        ["d1", "d2", "d3"] [1, 0, 1] 0 (-1) = 1 := by
  have h1 : Performance.relLookup ["d1", "d2", "d3"] [1, 0, 1] "d1" = some 1 := by decide
  have h2 : Performance.relLookup ["d1", "d2", "d3"] [1, 0, 1] "d2" = some 0 := by decide
  have h3 : Performance.relLookup ["d1", "d2", "d3"] [1, 0, 1] "d3" = some 1 := by decide
  constructor
  · norm_num [AveragePrecision.avg_precision_score, Performance.filter_ranked_list,
      Performance.filter_relevance_by_threshold, Performance.sortDesc,
      Performance.insertDesc, AveragePrecision.apWalk, h1, h2, h3]
  · norm_num [ReciprocalRank.rank, Performance.filter_ranked_list,
      Performance.filter_relevance_by_threshold, Performance.sortDesc,
      Performance.insertDesc, ReciprocalRank.rrWalk, h1, h2, h3]

/-- C5: counterexample — constructing the TF-IDF engine on the empty corpus
`{}` (zero documents, but not `None`) succeeds: the `documents is None` check
does not fire and every loop of the matrix construction runs zero times. -/
theorem tfidf_init_empty_corpus_succeeds :
    TFIDF.init (some []) = Except.ok () := rfl

/-- C5 (amended): TF-IDF construction fails exactly on an absent (`None`)
corpus — and on the out-of-model zero term counts, where `math.log` raises —
while any corpus dict with positive counts, the empty dict included, is
accepted. -/
theorem tfidf_init_fails_only_on_none :
    TFIDF.init none = Except.error "TFIDF should be initialized with a corpus." ∧
    ∀ docs : TFIDF.Corpus, (∀ d ∈ docs, ∀ t ∈ d.2, 0 < t.2) →
      TFIDF.init (some docs) = Except.ok () := by
  refine ⟨rfl, fun docs h => ?_⟩
  have hany : docs.any (fun d => d.2.any (fun t => t.2 = 0)) = false := by
    rw [List.any_eq_false]
    intro d hd
    simp only [Bool.not_eq_true, List.any_eq_false]
    intro t ht
    simp only [Bool.not_eq_true, decide_eq_false_iff_not]
    exact (h d hd t ht).ne'
  simp [TFIDF.init, hany]

/-- Witness for C5 (amended) at the corpus `{d1: {a: 2}}`. -/
theorem tfidf_init_fails_only_on_none_witness :
    TFIDF.init none = Except.error "TFIDF should be initialized with a corpus." ∧
    TFIDF.init (some [("d1", [("a", 2)])]) = Except.ok () :=
  ⟨tfidf_init_fails_only_on_none.1,
   tfidf_init_fails_only_on_none.2 [("d1", [("a", 2)])] (by decide)⟩

/-- C6: with the idf vocabulary `{a}`, a query containing only known tokens is
weighted by `idf * count` (`"a a"` yields `{a: idf[a] * 2}`), but the query
`"b"`, whose token is absent from the vocabulary, raises: the `pop` executed
under `except KeyError` shrinks `word_dict` during its own `items()`
iteration, and the next iteration step (Python 3) raises RuntimeError instead
of returning the dict with the token silently dropped. -/
theorem create_query_vector_unknown_token_raises :
    TFIDF.create_query_vector [("a", 0)] "a a" = Except.ok [("a", 0)] ∧
    TFIDF.create_query_vector [("a", 0)] "b" =
      Except.error "RuntimeError: dictionary changed size during iteration" := by
  have htok : TFIDF.pySplit "a a" = ["a", "a"] := by decide
  have hkeys : TFIDF.distinctTokens ["a", "a"] = ["a"] := by decide
  have hlook : TFIDF.idfLookup [("a", 0)] "a" = some 0 := by decide
  have hcount : (["a", "a"] : List String).count "a" = 2 := by decide
  have htokb : TFIDF.pySplit "b" = ["b"] := by decide
  have hkeysb : TFIDF.distinctTokens ["b"] = ["b"] := by decide
  have hlookb : TFIDF.idfLookup [("a", 0)] "b" = none := by decide
  constructor
  · norm_num [TFIDF.create_query_vector, htok, hkeys, hlook, hcount,
      List.filterMap_cons, List.filterMap_nil]
  · norm_num [TFIDF.create_query_vector, htokb, hkeysb, hlookb]

/-- C9: counterexample — `mean_avg_precision` over an accumulator to which
zero queries contributed does not divide by zero: the code guards
`len_prec > 0` and returns the value 0 (`some 0`, not the undefined `none`). -/
theorem mean_avg_precision_empty_returns_zero :
    AveragePrecision.mean_avg_precision [] = some 0 := rfl

/-- C9 (amended): with zero contributing queries, the MRR and R-Precision
means divide the accumulated total by the zero query count (undefined,
modeled `none`), but the MAP mean is guarded and returns 0. -/
theorem mean_aggregation_zero_queries :
    AveragePrecision.mean_avg_precision [] = some 0 ∧
    ReciprocalRank.mean_reciprocal_rank [] = none ∧
    Precision.mean_r_prec [] = none := ⟨rfl, rfl, rfl⟩

/-- C10: for every corpus and every document id absent from it (and any
term), `get_term_frequency_in_doc` returns 0 — the catch-all `except
KeyError` absorbs the missing-document lookup exactly like the missing-term
one — while `get_doc_length` on the same identifier raises (`none`). -/
theorem get_term_frequency_in_doc_missing_doc (documents : BM25.Corpus)
    (term doc_id : String) (h : BM25.lookupDoc documents doc_id = none) :
    BM25.get_term_frequency_in_doc documents term doc_id = 0 ∧
    BM25.get_doc_length documents doc_id = none := by
  constructor
  · simp [BM25.get_term_frequency_in_doc, h]
  · simp [BM25.get_doc_length, h]

/-- Witness for C10 at the corpus `{d1: {a: 1}}` and the missing id `d2`. -/
theorem get_term_frequency_in_doc_missing_doc_witness :
    BM25.get_term_frequency_in_doc [("d1", [("a", 1)])] "a" "d2" = 0 ∧
    BM25.get_doc_length [("d1", [("a", 1)])] "d2" = none :=
  get_term_frequency_in_doc_missing_doc [("d1", [("a", 1)])] "a" "d2" (by decide)
